import Mathlib

/-!
# Mini-shell command-tree interpreter (`src/cmd.c`)

A shallow embedding of `shell_cd`, `shell_exit`, `parse_simple`, `run_in_parallel`,
`run_on_pipe` and `parse_command`, over an explicit model of the part of the operating
system these functions talk to (environment, working directory, descriptor table, files,
process creation and reaping).

Conventions of the embedding.

* A C pointer to a tree cell is a value of an inductive type with a `NULL` constructor.
  Dereferencing `NULL` is undefined behaviour in C; here the process dies from `SIGSEGV`.
* A call that the source tests against `-1` returns an `Option`: `none` is `-1`.
* A C string that may be `NULL` (the results of `get_word` and `getcwd`) is an
  `Option String`, `none` being `NULL`.
* `fork` returns twice.  The code of the child (the `if (pid == 0)` block) is run to its end
  on a copy of the caller's per-process state at the moment of the `fork`; what it leaves in
  the state shared by all processes is what the parent goes on with, and the wait status it
  ended with is handed to the parent's later `waitpid`.  This is the schedule in which a child
  finishes before its parent's next step.
* The `up` field and the `father` argument only serve diagnostics and are never read by
  `cmd.c`; the tree is immutable here and both are left out (the `NULL` dereference of
  `c->cmd1->up = c` is kept).
* Paths are opaque names: no resolution against the working directory is modelled.
-/

namespace MiniShell

/-! ## The parsed command line -/

/-- Modelled from the spec: `word_t` of the parser header, which is not among the sources.
`cmd.c` reads `string` and `next_part` (a word is a chain of parts).  `expand` (the part
names an environment variable: "a possibly environment-variable-bearing token") and
`next_word` (the next word of "an ordered sequence of parameter Words") are only read by the
word expansion and the argument-vector construction, which are parameters here. -/
inductive word_t where
  | NULL
  | mk (string : String) (expand : Bool) (next_part next_word : word_t)
  deriving DecidableEq

/-- Modelled from the spec: the I/O mode flag of a simple command (`Regular`, `AppendOut`,
`AppendErr`), whose constants are declared in the parser header. -/
inductive io_flags_t where
  | IO_REGULAR
  | IO_OUT_APPEND
  | IO_ERR_APPEND
  deriving DecidableEq

/-- Modelled from the spec: `simple_command_t` of the parser header.  `in_` is the field
`in` of the source. -/
structure simple_command_t where
  verb : word_t
  params : word_t
  in_ : word_t
  out : word_t
  err : word_t
  io_flags : io_flags_t
  deriving DecidableEq

/-- Modelled from the spec: the operator tag of a tree node.  `OP_DUMMY` stands for every
tag value for which the `switch` of `parse_command` has no `case`. -/
inductive operator_t where
  | OP_NONE
  | OP_PARALLEL
  | OP_SEQUENTIAL
  | OP_CONDITIONAL_ZERO
  | OP_CONDITIONAL_NZERO
  | OP_PIPE
  | OP_DUMMY
  deriving DecidableEq

/-- Modelled from the spec: `command_t` of the parser header; `scmd` is a pointer, `none`
being `NULL`. -/
inductive command_t where
  | NULL
  | mk (cmd1 cmd2 : command_t) (op : operator_t) (scmd : Option simple_command_t)
  deriving DecidableEq

/-- Pointer test `c == NULL`. -/
def command_t.isNULL : command_t → Bool
  | .NULL => true
  | .mk _ _ _ _ => false

/-! ## The operating system -/

/-- Flags of `open(2)` used by the source. -/
inductive oflag where
  | O_RDONLY
  | O_WRONLY
  | O_CREAT
  | O_TRUNC
  | O_APPEND
  deriving DecidableEq

/-- What a descriptor is bound to. -/
inductive handle where
  | tty
  | file (path : String) (flags : List oflag)
  | pipe_read (id : Nat)
  | pipe_write (id : Nat)
  deriving DecidableEq

/-- A line written on the error stream. -/
inductive diag where
  | parse_error (str : String) (level : Nat)
  | fprintf (text : String)
  deriving DecidableEq

/-- State seen by the running process.  `env`, `cwd` and `fds` belong to the process and are
copied by `fork`; the other fields are shared by all processes.  `clock` counts the fallible
system calls issued so far. -/
structure World where
  env : List (String × String)
  cwd : String
  fds : List (Option handle)
  files : List (String × String)
  dirs : List String
  npipes : Nat
  next_pid : Nat
  clock : Nat
  stderr : List diag
  deriving DecidableEq

/-- Everything `cmd.c` uses that lies outside it.
* `SHELL_EXIT`: the constant of the same name (header not among the sources).
* `get_word`: word expansion (`utils`), in a given environment; the result is a C string,
  `none` being the `NULL` pointer (what an absent word expands to is up to `utils`).
* `get_argv`: argument-vector construction (`utils`).
* `execvp`: what the program named by an argument vector does when started in a given state:
  `none` when it cannot be started (`execvp` returns `-1`), otherwise the raw wait status it
  ends with and the files it leaves.
* `fails n`: the `n`-th fallible system call fails for a reason outside the model
  (`EINTR`, `ENOMEM`, `EMFILE`, ...).
* `stray`: what becomes of a pipeline child that left `run_on_pipe` through `return`, from
  its state at that `return`: the wait status it ends with and the state it leaves
  (see `child_end`). -/
structure Platform where
  SHELL_EXIT : Int
  get_word : List (String × String) → word_t → Option String
  get_argv : List (String × String) → simple_command_t → List String
  execvp : List String → World → Option (Nat × List (String × String))
  fails : Nat → Bool
  stray : World → Nat × World

def EXIT_SUCCESS : Int := 0
def EXIT_FAILURE : Int := 1
def STDIN_FILENO : Nat := 0
def STDOUT_FILENO : Nat := 1
def STDERR_FILENO : Nat := 2
def SIGSEGV : Nat := 11

/-- Result of running a piece of code in the current process: it returns a value, or the
process is gone (`exit`, a replaced program image that ran to its end, a fatal signal) and
`wstatus` is the raw status `waitpid` reports for it. -/
inductive Res (α : Type) where
  | ret (a : α) (w : World)
  | ended (wstatus : Nat) (w : World)
  deriving DecidableEq

/-- `exit(code)`: the low eight bits of `code`, in bits 8..15 of the wait status. -/
def exit {α : Type} (code : Int) (w : World) : Res α :=
  .ended ((code % 256).toNat * 256) w

/-- Dereference of `NULL`. -/
def segfault {α : Type} (w : World) : Res α :=
  .ended SIGSEGV w

/-- `WEXITSTATUS(status)`, that is `(status & 0xff00) >> 8`. -/
def WEXITSTATUS (status : Nat) : Nat := (status / 256) % 256

/-- `WIFEXITED(status)`, that is `(status & 0x7f) == 0`. -/
def WIFEXITED (status : Nat) : Bool := status % 128 == 0

/-- Conversion of an `int` to `bool` (functions declared `static bool`). -/
def to_bool (n : Int) : Bool := n != 0

/-- Conversion of a `bool` to `int`. -/
def of_bool (b : Bool) : Int := if b then 1 else 0

/-- A `bool` result received as an `int`. -/
def bool_result : Res Bool → Res Int
  | .ret b w => .ret (of_bool b) w
  | .ended wstatus w => .ended wstatus w

/-- A fallible system call is issued: does it fail for an outside reason? -/
def tick (P : Platform) (w : World) : Bool × World :=
  (P.fails w.clock, { w with clock := w.clock + 1 })

/-- `parse_error(str, level)`: a diagnostic on the error stream. -/
def parse_error (str : String) (level : Nat) (w : World) : World :=
  { w with stderr := w.stderr ++ [diag.parse_error str level] }

/-- `fprintf(stderr, ...)` with the formatted text. -/
def fprintf_stderr (text : String) (w : World) : World :=
  { w with stderr := w.stderr ++ [diag.fprintf text] }

/-- Value bound to a key in an association list. -/
def lookup (key : String) : List (String × String) → Option String
  | [] => none
  | (k, v) :: rest => if k = key then some v else lookup key rest

/-- Bind a key, replacing an existing binding in place. -/
def store (key value : String) : List (String × String) → List (String × String)
  | [] => [(key, value)]
  | (k, v) :: rest => if k = key then (k, value) :: rest else (k, v) :: store key value rest

/-- `getenv(name)`. -/
def getenv (name : String) (w : World) : Option String :=
  lookup name w.env

/-- `setenv(name, value, 1)`, `value` being a C string (`none` is `NULL`).  An empty name or
a name with `=` in it is refused (`EINVAL`); the value is then measured, which dereferences
it, so that the process dies on a `NULL` value; after that the call can fail for an outside
reason (`ENOMEM`).  A failed call leaves the environment as it was. -/
def setenv (P : Platform) (name : String) (value : Option String) (w : World) :
    Res (Option Unit) :=
  match tick P w with
  | (bad, w) =>
    if name == "" || name.toList.contains '=' then .ret none w
    else
      match value with
      | none => segfault w
      | some value =>
        if bad then .ret none w
        else .ret (some ()) { w with env := store name value w.env }

/-- `getcwd(NULL, 0)`: the working directory, or `NULL` when the call fails. -/
def getcwd (P : Platform) (w : World) : Option String × World :=
  match tick P w with
  | (bad, w) => if bad then (none, w) else (some w.cwd, w)

/-- `chdir(path)`: succeeds on a directory that can be entered. -/
def chdir (P : Platform) (path : String) (w : World) : Option Unit × World :=
  match tick P w with
  | (bad, w) =>
    if bad || !(w.dirs.contains path) then (none, w)
    else (some (), { w with cwd := path })

/-- Binding of a descriptor, `none` when it is not open. -/
def fd_get : List (Option handle) → Nat → Option handle
  | [], _ => none
  | x :: _, 0 => x
  | _ :: t, n + 1 => fd_get t n

/-- Rebind one slot of the descriptor table. -/
def fd_set : List (Option handle) → Nat → Option handle → List (Option handle)
  | [], 0, h => [h]
  | [], n + 1, h => none :: fd_set [] n h
  | _ :: t, 0, h => h :: t
  | x :: t, n + 1, h => x :: fd_set t n h

/-- Bind the lowest free descriptor. -/
def fd_alloc (h : handle) : List (Option handle) → Nat × List (Option handle)
  | [] => (0, [some h])
  | none :: t => (0, some h :: t)
  | some x :: t => ((fd_alloc h t).1 + 1, some x :: (fd_alloc h t).2)

/-- `open(path, flags, 0644)`: a missing file is created (empty) under `O_CREAT` and the call
fails without it; an existing file is emptied under `O_TRUNC` and kept as it is otherwise. -/
def open_ (P : Platform) (path : String) (flags : List oflag) (w : World) : Option Nat × World :=
  match tick P w with
  | (bad, w) =>
    if bad then (none, w)
    else
      match lookup path w.files with
      | none =>
        if flags.contains oflag.O_CREAT then
          (some (fd_alloc (.file path flags) w.fds).1,
            { w with files := store path "" w.files,
                     fds := (fd_alloc (.file path flags) w.fds).2 })
        else (none, w)
      | some _ =>
        (some (fd_alloc (.file path flags) w.fds).1,
          { w with files := if flags.contains oflag.O_TRUNC then store path "" w.files
                            else w.files,
                   fds := (fd_alloc (.file path flags) w.fds).2 })

/-- `open` on a C string that may be `NULL`: the call then fails (`EFAULT`). -/
def open_ptr (P : Platform) (path : Option String) (flags : List oflag) (w : World) :
    Option Nat × World :=
  match path with
  | none => (none, (tick P w).2)
  | some path => open_ P path flags w

/-- `close(fd)`. -/
def close (P : Platform) (fd : Nat) (w : World) : Option Unit × World :=
  match tick P w with
  | (bad, w) =>
    if bad || (fd_get w.fds fd).isNone then (none, w)
    else (some (), { w with fds := fd_set w.fds fd none })

/-- `dup2(oldfd, newfd)`. -/
def dup2 (P : Platform) (oldfd newfd : Nat) (w : World) : Option Unit × World :=
  match tick P w with
  | (bad, w) =>
    if bad || (fd_get w.fds oldfd).isNone then (none, w)
    else (some (), { w with fds := fd_set w.fds newfd (fd_get w.fds oldfd) })

/-- `pipe(pipefd)`: the read end, then the write end. -/
def pipe (P : Platform) (w : World) : Option (Nat × Nat) × World :=
  match tick P w with
  | (bad, w) =>
    if bad then (none, w)
    else
      let r := fd_alloc (.pipe_read w.npipes) w.fds
      let t := fd_alloc (.pipe_write w.npipes) r.2
      (some (r.1, t.1), { w with fds := t.2, npipes := w.npipes + 1 })

/-- `fork()` as seen by the caller: the new process identifier. -/
def fork (P : Platform) (w : World) : Option Nat × World :=
  match tick P w with
  | (bad, w) =>
    if bad then (none, w)
    else (some w.next_pid, { w with next_pid := w.next_pid + 1 })

/-- `waitpid(pid, &status, 0)` on a child that ended with `wstatus`. -/
def waitpid (P : Platform) (_pid : Nat) (wstatus : Nat) (w : World) : Option Nat × World :=
  match tick P w with
  | (bad, w) => if bad then (none, w) else (some wstatus, w)

/-- Wait status and final state of a child process whose code ran to `r`.  A child that
returns from the function that created it (the failing descriptor operations in the children
of `run_on_pipe`) is a second copy of the shell: it goes on through the frames of
`parse_command` that enclose the call and then through their caller.  That continuation is
not run here; the wait status it ends with and the state it leaves are `P.stray`, applied to
the state at the `return`. -/
def child_end {α : Type} (P : Platform) : Res α → Nat × World
  | .ended wstatus w => (wstatus, w)
  | .ret _ w => P.stray w

/-- The parent after a child ran: its own environment, directory and descriptors, and the
shared state as the child left it. -/
def resume (parent child : World) : World :=
  { child with env := parent.env, cwd := parent.cwd, fds := parent.fds }

/-! ## `cmd.c` -/

/-- Internal change-directory command (`shell_cd`, lines 22-73).  The result is the `bool`
the function returns. -/
def shell_cd (P : Platform) (dir : word_t) (w : World) : Res Bool :=
  match dir with
  | .NULL =>
    -- if dir is NULL, go to the home directory
    match getenv "HOME" w with
    | none => .ret (to_bool 1) (fprintf_stderr "cd: HOME not set\n" w)
    | some home =>
      match chdir P home w with
      | (none, w) =>
        .ret (to_bool 1) (fprintf_stderr ("cd: " ++ home ++ ": No such file or directory\n") w)
      | (some _, w) => .ret (to_bool 0) w
  | .mk string _ _ _ =>
    if string = "-" then
      -- the previous directory
      match getenv "OLDPWD" w with
      | none => .ret (to_bool 1) (fprintf_stderr "cd: OLDPWD not set\n" w)
      | some oldpwd =>
        match chdir P oldpwd w with
        | (none, w) =>
          .ret (to_bool 1)
            (fprintf_stderr ("cd: " ++ oldpwd ++ ": No such file or directory\n") w)
        | (some _, w) => .ret (to_bool 0) w
    else
      -- remember the current directory in OLDPWD, then change directory
      match getcwd P w with
      | (oldpwd, w) =>
        -- put the current directory in OLDPWD (`oldpwd` is not tested against NULL)
        match setenv P "OLDPWD" oldpwd w with
        | .ended wstatus w => .ended wstatus w
        | .ret none w => .ret (to_bool 1) (fprintf_stderr "cd: OLDPWD not set\n" w)
        | .ret (some _) w =>
          match chdir P string w with
          | (none, w) =>
            .ret (to_bool 1)
              (fprintf_stderr ("cd: " ++ string ++ ": No such file or directory\n") w)
          | (some _, w) => .ret (to_bool 0) w

/-- Internal exit/quit command (`shell_exit`, lines 78-82). -/
def shell_exit (P : Platform) (w : World) : Res Int :=
  exit P.SHELL_EXIT w

/-- The `dup2` calls of one redirection, each with the text of its diagnostic. -/
def dup_all (P : Platform) (fd : Nat) (level : Nat) :
    List (Nat × String) → World → Res Unit
  | [], w => .ret () w
  | (target, msg) :: rest, w =>
    match dup2 P fd target w with
    | (none, w) => exit EXIT_FAILURE (parse_error msg level w)
    | (some _, w) => dup_all P fd level rest w

/-- One redirection in the child of `parse_simple`: open the file, duplicate the descriptor
onto each target, close it.  A failing step reports its diagnostic and ends the child with
`exit(EXIT_FAILURE)`.  The source writes this sequence out six times (lines 155-173, 179-201,
204-222, 226-243, 249-266, 270-287), with these texts. -/
def redirect (P : Platform) (file : Option String) (flags : List oflag) (open_msg : String)
    (targets : List (Nat × String)) (close_msg : String) (level : Nat) (w : World) : Res Unit :=
  match open_ptr P file flags w with
  | (none, w) => exit EXIT_FAILURE (parse_error open_msg level w)
  | (some fd, w) =>
    match dup_all P fd level targets w with
    | .ended wstatus w => .ended wstatus w
    | .ret _ w =>
      match close P fd w with
      | (none, w) => exit EXIT_FAILURE (parse_error close_msg level w)
      | (some _, w) => .ret () w

/-- The test of line 177: `s->out != NULL && s->err != NULL &&
strcmp(s->out->string, s->err->string) == 0`. -/
def same_target : word_t → word_t → Bool
  | .mk out_string _ _ _, .mk err_string _ _ _ => out_string == err_string
  | _, _ => false

/-- Redirections performed in the child of `parse_simple` (lines 153-288). -/
def child_redirections (P : Platform) (s : simple_command_t) (level : Nat) (w : World) :
    Res Unit :=
  match s.io_flags with
  | .IO_REGULAR =>
    match (if s.in_ != .NULL then
        redirect P (P.get_word w.env s.in_) [.O_RDONLY]
          "opening the in_file failed (regular)"
          [(STDIN_FILENO, "duplicating the in_file failed (regular)")]
          "closing the in_file failed (regular)" level w
      else .ret () w) with
    | .ended wstatus w => .ended wstatus w
    | .ret _ w =>
      if same_target s.out s.err then
        -- the redirection is "&>": one file for the output and the error
        redirect P (P.get_word w.env s.out) [.O_WRONLY, .O_CREAT, .O_TRUNC]
          "opening the out_err_file failed (regular)"
          [(STDOUT_FILENO, "duplicating the out_err_file failed (out | regular)"),
           (STDERR_FILENO, "duplicating the out_err_file failed (err | regular)")]
          "closing the out_err_file failed (regular)" level w
      else
        match (if s.out != .NULL then
            redirect P (P.get_word w.env s.out) [.O_WRONLY, .O_CREAT, .O_TRUNC]
              "opening the out_file failed (regular)"
              [(STDOUT_FILENO, "duplcating the out_file failed (regular)")]
              "closing the out_file failed (regular)" level w
          else .ret () w) with
        | .ended wstatus w => .ended wstatus w
        | .ret _ w =>
          if s.err != .NULL then
            redirect P (P.get_word w.env s.err) [.O_WRONLY, .O_CREAT, .O_TRUNC]
              "opening the err_file failed (regular)"
              [(STDERR_FILENO, "duplicating the err_file failed (regular)")]
              "closing the err_file failed (regular)" level w
          else .ret () w
  | .IO_OUT_APPEND =>
    if s.out != .NULL then
      -- append the output
      redirect P (P.get_word w.env s.out) [.O_WRONLY, .O_CREAT, .O_APPEND]
        "opening the out file failed (appending)"
        [(STDOUT_FILENO, "duplicating the out file failed (appending)")]
        "closing the out file failed (appending)" level w
    else .ret () w
  | .IO_ERR_APPEND =>
    if s.err != .NULL then
      -- append the error
      redirect P (P.get_word w.env s.err) [.O_WRONLY, .O_CREAT, .O_APPEND]
        "opening the err file failed (appending)"
        [(STDERR_FILENO, "duplicating the err file failed (appending)")]
        "closing the err file failed (appending)" level w
    else .ret () w

/-- The child of `parse_simple` (the `if (pid == 0)` block, lines 151-307): redirections,
then the program image is replaced.  It never returns. -/
def simple_child (P : Platform) (s : simple_command_t) (level : Nat) (w : World) : Res Int :=
  match child_redirections P s level w with
  | .ended wstatus w => .ended wstatus w
  | .ret _ w =>
    -- execute the command
    match P.execvp (P.get_argv w.env s) w with
    | none =>
      exit EXIT_FAILURE
        (fprintf_stderr ("Execution failed for '" ++ (P.get_argv w.env s).headD "" ++ "'\n") w)
    | some (wstatus, files) => .ended wstatus { w with files := files }

/-- The word after `=` when the verb is followed by a part `=` (line 125), that is
`s->verb->next_part->next_part`. -/
def assigned_value : word_t → Option word_t
  | .mk _ _ (.mk eq_string _ value _) _ => if eq_string = "=" then some value else none
  | _ => none

/-- Parse a simple command: internal, environment variable assignment, external command
(`parse_simple`, lines 88-318). -/
def parse_simple (P : Platform) (s : Option simple_command_t) (level : Nat) (w : World) :
    Res Int :=
  match s with
  | none => .ret 0 w
  | some s =>
    match s.verb with
    | .NULL => segfault w
    | .mk verb_string _ _ _ =>
      if verb_string = "cd" then
        -- before changing the directory, create the file of the redirection
        match s.out with
        | .mk out_string _ _ _ =>
          match open_ P out_string [.O_WRONLY, .O_CREAT] w with
          | (none, w) => .ret 1 (parse_error "open" level w)
          | (some fd, w) =>
            match close P fd w with
            | (none, w) => .ret 1 (parse_error "close" level w)
            | (some _, w) => bool_result (shell_cd P s.params w)
        | .NULL => bool_result (shell_cd P s.params w)
      else if verb_string = "exit" || verb_string = "quit" then
        shell_exit P w
      else
        match assigned_value s.verb with
        | some value =>
          -- try to set the variable (`variable` is not tested against NULL)
          match setenv P verb_string (P.get_word w.env value) w with
          | .ended wstatus w => .ended wstatus w
          | .ret none w => .ret EXIT_FAILURE (parse_error "setenv" level w)
          | .ret (some _) w => .ret EXIT_SUCCESS w
        | none =>
          -- fork new process
          match fork P w with
          | (none, w) => .ret 1 (parse_error "fork" level w)
          | (some pid, w) =>
            -- child process
            match child_end P (simple_child P s level w) with
            | (wstatus, cw) =>
              -- parent process: wait for child
              match waitpid P pid wstatus (resume w cw) with
              | (none, w) =>
                .ret 1 (parse_error "something happened to the child process" level w)
              | (some status, w) => .ret (WEXITSTATUS status) w

/-- Process two commands in parallel, by creating two children (`run_in_parallel`,
lines 323-365).  `cmd1` and `cmd2` are given by what `parse_command` does on them. -/
def run_in_parallel (P : Platform) (cmd1 cmd2 : Nat → World → Res Int) (level : Nat)
    (w : World) : Res Bool :=
  -- fork first command
  match fork P w with
  | (none, w) => .ret (to_bool 1) (parse_error "failed to fork" level w)
  | (some pid1, w) =>
    -- first command: parse_command(cmd1, level + 1, father); exit(EXIT_SUCCESS);
    match child_end P (match cmd1 (level + 1) w with
        | .ret _ w => (exit EXIT_SUCCESS w : Res Int)
        | .ended wstatus w => .ended wstatus w) with
    | (wstatus1, cw) =>
      -- fork second command
      match fork P (resume w cw) with
      | (none, w) => .ret (to_bool 1) (parse_error "failed to fork" level w)
      | (some pid2, w) =>
        -- second command: parse_command(cmd2, level + 1, father); exit(EXIT_SUCCESS);
        match child_end P (match cmd2 (level + 1) w with
            | .ret _ w => (exit EXIT_SUCCESS w : Res Int)
            | .ended wstatus w => .ended wstatus w) with
        | (wstatus2, cw) =>
          -- parent process: wait for the children
          match waitpid P pid1 wstatus1 (resume w cw) with
          | (none, w) =>
            .ret (to_bool 1) (parse_error "something fishy with the child (waitpid)" level w)
          | (some status1, w) =>
            match waitpid P pid2 wstatus2 w with
            | (none, w) =>
              .ret (to_bool 1)
                (parse_error "something fishy with the child (waitpid)" level w)
            | (some status2, w) =>
              -- WEXITSTATUS(status1 && status2)
              .ret (to_bool (WEXITSTATUS (of_bool (status1 != 0 && status2 != 0)).toNat)) w

/-- Run commands by creating an anonymous pipe, `cmd1 | cmd2` (`run_on_pipe`, lines 370-461).
`cmd1` and `cmd2` are given by what `parse_command` does on them.  In a child, a failing
descriptor operation makes the function `return` (not `exit`): the child then runs on as a
copy of the shell (see `child_end`). -/
def run_on_pipe (P : Platform) (cmd1 cmd2 : Nat → World → Res Int) (level : Nat)
    (w : World) : Res Bool :=
  -- create the pipe
  match pipe P w with
  | (none, w) => .ret (to_bool 1) (parse_error "failed to pipe" level w)
  | (some (pipefd_READ, pipefd_WRITE), w) =>
    -- fork first command
    match fork P w with
    | (none, w) => .ret (to_bool EXIT_FAILURE) (parse_error "failed to fork" level w)
    | (some pid1, w) =>
      -- first child: close the read end of the pipe
      match child_end P
        (match close P pipefd_READ w with
        | (none, w) =>
          (.ret (to_bool EXIT_FAILURE)
            (parse_error "failed to close the read end of the pipe" level w) : Res Bool)
        | (some _, w) =>
          -- redirect stdout to the write end of the pipe
          match dup2 P pipefd_WRITE STDOUT_FILENO w with
          | (none, w) =>
            .ret (to_bool EXIT_FAILURE)
              (parse_error "failed to duplicate the write end of the pipe" level w)
          | (some _, w) =>
            -- close the write end of the pipe
            match close P pipefd_WRITE w with
            | (none, w) =>
              .ret (to_bool EXIT_FAILURE)
                (parse_error "failed to close the write end of the pipe" level w)
            | (some _, w) =>
              -- execute cmd1 and determine the exit status
              match cmd1 (level + 1) w with
              | .ret status w =>
                exit (if status = EXIT_SUCCESS then EXIT_SUCCESS else EXIT_FAILURE) w
              | .ended wstatus w => .ended wstatus w) with
      | (wstatus1, cw) =>
        -- fork second command
        match fork P (resume w cw) with
        | (none, w) => .ret (to_bool 1) (parse_error "fork" level w)
        | (some pid2, w) =>
          -- second child: close the write end of the pipe
          match child_end P
            (match close P pipefd_WRITE w with
            | (none, w) =>
              (.ret (to_bool EXIT_FAILURE)
                (parse_error "failed to close the write end of the pipe" level w) : Res Bool)
            | (some _, w) =>
              -- redirect stdin to the read end of the pipe
              match dup2 P pipefd_READ STDIN_FILENO w with
              | (none, w) =>
                .ret (to_bool EXIT_FAILURE)
                  (parse_error "failed to duplicate the read end of the pipe" level w)
              | (some _, w) =>
                -- close the read end of the pipe
                match close P pipefd_READ w with
                | (none, w) =>
                  .ret (to_bool 1)
                    (parse_error "failed to close the read end of the pipe" level w)
                | (some _, w) =>
                  -- execute cmd2 and determine the exit status
                  match cmd2 (level + 1) w with
                  | .ret status w =>
                    exit (if status = EXIT_SUCCESS then EXIT_SUCCESS else EXIT_FAILURE) w
                  | .ended wstatus w => .ended wstatus w) with
          | (wstatus2, cw) =>
            -- close the read end of the pipe
            match close P pipefd_READ (resume w cw) with
            | (none, w) =>
              .ret (to_bool 1) (parse_error "failed to close the read end of the pipe" level w)
            | (some _, w) =>
              -- close the write end of the pipe
              match close P pipefd_WRITE w with
              | (none, w) =>
                .ret (to_bool 1)
                  (parse_error "failed to close the write end of the pipe" level w)
              | (some _, w) =>
                -- wait for the first command
                match waitpid P pid1 wstatus1 w with
                | (none, w) =>
                  .ret (to_bool EXIT_FAILURE)
                    (parse_error "something fishy with the child (waitpid)" level w)
                | (some _, w) =>
                  -- wait for the second command
                  match waitpid P pid2 wstatus2 w with
                  | (none, w) =>
                    .ret (to_bool EXIT_FAILURE)
                      (parse_error "something fishy with the child (waitpid)" level w)
                  | (some status2, w) =>
                    -- only the second command decides
                    .ret (WIFEXITED status2 && WEXITSTATUS status2 != 0) w

/-- Parse and execute a command (`parse_command`, lines 466-533). -/
def parse_command (P : Platform) : command_t → Nat → World → Res Int
  | .NULL, _, w => .ret 0 w
  | .mk cmd1 cmd2 op scmd, level, w =>
    match op with
    | .OP_NONE =>
      -- execute a simple command
      parse_simple P scmd level w
    | .OP_SEQUENTIAL =>
      if cmd1.isNULL || cmd2.isNULL then segfault w
      else
        match parse_command P cmd1 (level + 1) w with
        | .ended wstatus w => .ended wstatus w
        | .ret _ w => parse_command P cmd2 (level + 1) w
    | .OP_PARALLEL =>
      if cmd1.isNULL || cmd2.isNULL then segfault w
      else
        bool_result
          (run_in_parallel P (parse_command P cmd1) (parse_command P cmd2) (level + 1) w)
    | .OP_CONDITIONAL_NZERO =>
      if cmd1.isNULL then segfault w
      else
        match parse_command P cmd1 (level + 1) w with
        | .ended wstatus w => .ended wstatus w
        | .ret status w =>
          -- check if the first command returned non zero
          if status != 0 then
            if cmd2.isNULL then segfault w
            else parse_command P cmd2 (level + 1) w
          else .ret status w
    | .OP_CONDITIONAL_ZERO =>
      if cmd1.isNULL then segfault w
      else
        match parse_command P cmd1 (level + 1) w with
        | .ended wstatus w => .ended wstatus w
        | .ret status w =>
          -- check if the first command returned zero
          if status == 0 then
            if cmd2.isNULL then segfault w
            else parse_command P cmd2 (level + 1) w
          else .ret status w
    | .OP_PIPE =>
      if cmd1.isNULL || cmd2.isNULL then segfault w
      else
        bool_result
          (run_on_pipe P (parse_command P cmd1) (parse_command P cmd2) (level + 1) w)
    | .OP_DUMMY => .ret P.SHELL_EXIT w

/-! ## A concrete platform and concrete command lines -/

/-- The parts of a word in order, a part marked `expand` replaced by the value of the
variable it names (empty when unset). -/
def demo_parts (env : List (String × String)) : word_t → String
  | .NULL => ""
  | .mk string expand next_part _ =>
    (if expand then (lookup string env).getD "" else string) ++ demo_parts env next_part

/-- Word expansion as a concrete function: `NULL` for an absent word, the expanded parts of
the word otherwise. -/
def demo_get_word (env : List (String × String)) : word_t → Option String
  | .NULL => none
  | .mk string expand next_part next_word =>
    some (demo_parts env (.mk string expand next_part next_word))

/-- The expanded words of a parameter list. -/
def demo_params (env : List (String × String)) : word_t → List String
  | .NULL => []
  | .mk string expand next_part next_word =>
    demo_parts env (.mk string expand next_part .NULL) :: demo_params env next_word

/-- A few programs: `true` ends with status 0, `false` with status 1, `grep` without a
pattern with status 2; `cat` appends the file on its standard input to the file on its
standard output and ends with status 0 (it has nothing to copy when one of the two is not a
file).  No other program can be started. -/
def demo_execvp : List String → World → Option (Nat × List (String × String))
  | ["true"], w => some (0, w.files)
  | ["false"], w => some (1 * 256, w.files)
  | ["grep"], w => some (2 * 256, w.files)
  | ["cat"], w =>
    match fd_get w.fds STDIN_FILENO, fd_get w.fds STDOUT_FILENO with
    | some (.file src _), some (.file dst _) =>
      some (0, store dst ((lookup dst w.files).getD "" ++ (lookup src w.files).getD "") w.files)
    | _, _ => some (0, w.files)
  | _, _ => none

/-- A platform on which no system call fails for an outside reason. -/
def demo : Platform where
  SHELL_EXIT := -100
  get_word := demo_get_word
  get_argv := fun env s => demo_parts env s.verb :: demo_params env s.params
  execvp := demo_execvp
  fails := fun _ => false
  stray := fun w => (0, w)

/-- The same platform with every fallible system call failing. -/
def demo_failing : Platform :=
  { demo with fails := fun _ => true }

/-- A shell with the three standard descriptors on the terminal, an empty environment, and a
file system holding the directory `/tmp/home` and the file `notes.txt`. -/
def w0 : World where
  env := []
  cwd := "/"
  fds := [some .tty, some .tty, some .tty]
  files := [("notes.txt", "remember the milk\n")]
  dirs := ["/", "/tmp/home"]
  npipes := 0
  next_pid := 100
  clock := 0
  stderr := []

/-- The same shell with `HOME=/tmp/home`. -/
def w_home : World :=
  { w0 with env := [("HOME", "/tmp/home")] }

/-- A word made of one literal part. -/
def lit (string : String) : word_t := .mk string false .NULL .NULL

/-- A simple command made of a verb only. -/
def plain (verb : word_t) : simple_command_t :=
  { verb := verb, params := .NULL, in_ := .NULL, out := .NULL, err := .NULL,
    io_flags := .IO_REGULAR }

/-- A leaf of the command tree. -/
def leaf (s : simple_command_t) : command_t := .mk .NULL .NULL .OP_NONE (some s)

/-- An inner node of the command tree. -/
def node (op : operator_t) (left right : command_t) : command_t := .mk left right op none


/-! ## Vocabulary of the properties -/

/-- A finite, well-formed command tree: every node is a leaf (`OP_NONE`) or carries one of
the five operators over two well-formed subtrees, none of them `NULL`. -/
def well_formed : command_t → Bool
  | .NULL => false
  | .mk cmd1 cmd2 op _ =>
    match op with
    | .OP_NONE => true
    | .OP_DUMMY => false
    | _ => well_formed cmd1 && well_formed cmd2

/-- The simple commands at the leaves of a tree, from left to right. -/
def leaves : command_t → List (Option simple_command_t)
  | .NULL => []
  | .mk cmd1 cmd2 op scmd =>
    match op with
    | .OP_NONE => [scmd]
    | _ => leaves cmd1 ++ leaves cmd2

/-! # Properties -/

/-! ## Sequencing and conditional chaining -/

/-- C5. `Sequential(left, right)`: whatever status `left` returns, the node's result is the
result of evaluating `right` (one level down, in the same process) in the state `left`
left behind: both run, in that order, and the status is the one of `right`. -/
theorem sequential_runs_both (P : Platform) (left right : command_t)
    (scmd : Option simple_command_t) (level : Nat) (w w1 : World) (status : Int)
    (hl : left.isNULL = false) (hr : right.isNULL = false)
    (hleft : parse_command P left (level + 1) w = .ret status w1) :
    parse_command P (.mk left right .OP_SEQUENTIAL scmd) level w
      = parse_command P right (level + 1) w1 := by
  simp [parse_command, hl, hr, hleft]

/-- C3. `ConditionalOnZero(left, right)`: when `left` returns a non-zero status the node
returns that status in the very state `left` left behind (nothing of `right` happened);
when `left` returns 0 the node's result is the result of evaluating `right` once, in the
state `left` left behind. -/
theorem conditional_zero_short_circuit (P : Platform) (left right : command_t)
    (scmd : Option simple_command_t) (level : Nat) (w w1 : World) (status : Int)
    (hl : left.isNULL = false)
    (hleft : parse_command P left (level + 1) w = .ret status w1) :
    (status ≠ 0 →
      parse_command P (.mk left right .OP_CONDITIONAL_ZERO scmd) level w = .ret status w1) ∧
    (status = 0 → right.isNULL = false →
      parse_command P (.mk left right .OP_CONDITIONAL_ZERO scmd) level w
        = parse_command P right (level + 1) w1) := by
  constructor
  · intro hs
    simp [parse_command, hl, hleft, hs]
  · intro hs hr
    simp [parse_command, hl, hleft, hs, hr]

/-- C4. `ConditionalOnNonzero(left, right)`: when `left` returns 0 the node returns 0 in the
very state `left` left behind (nothing of `right` happened); when `left` returns a non-zero
status the node's result is the result of evaluating `right` once, in the state `left` left
behind. -/
theorem conditional_nonzero_short_circuit (P : Platform) (left right : command_t)
    (scmd : Option simple_command_t) (level : Nat) (w w1 : World) (status : Int)
    (hl : left.isNULL = false)
    (hleft : parse_command P left (level + 1) w = .ret status w1) :
    (status = 0 →
      parse_command P (.mk left right .OP_CONDITIONAL_NZERO scmd) level w = .ret 0 w1) ∧
    (status ≠ 0 → right.isNULL = false →
      parse_command P (.mk left right .OP_CONDITIONAL_NZERO scmd) level w
        = parse_command P right (level + 1) w1) := by
  constructor
  · intro hs
    simp [parse_command, hl, hleft, hs]
  · intro hs hr
    simp [parse_command, hl, hleft, hs, hr]

/-- `false ; true` returns the status of `true`, after both programs ran. -/
theorem sequential_runs_both_witness :
    parse_command demo (node .OP_SEQUENTIAL (leaf (plain (lit "false"))) (leaf (plain (lit "true")))) 0 w0
      = parse_command demo (leaf (plain (lit "true"))) 1 { w0 with next_pid := 101, clock := 2 }
    ∧ parse_command demo (leaf (plain (lit "true"))) 1 { w0 with next_pid := 101, clock := 2 }
      = .ret 0 { w0 with next_pid := 102, clock := 4 } :=
  ⟨sequential_runs_both demo (leaf (plain (lit "false"))) (leaf (plain (lit "true"))) none 0 w0
      { w0 with next_pid := 101, clock := 2 } 1 rfl rfl rfl, rfl⟩

/-- `false && true` returns 1 and `true` is not started; `true && grep` returns what `grep`
returns after `true`. -/
theorem conditional_zero_short_circuit_witness :
    parse_command demo
        (node .OP_CONDITIONAL_ZERO (leaf (plain (lit "false"))) (leaf (plain (lit "true")))) 0 w0
      = .ret 1 { w0 with next_pid := 101, clock := 2 }
    ∧ parse_command demo
        (node .OP_CONDITIONAL_ZERO (leaf (plain (lit "true"))) (leaf (plain (lit "grep")))) 0 w0
      = parse_command demo (leaf (plain (lit "grep"))) 1 { w0 with next_pid := 101, clock := 2 } :=
  ⟨(conditional_zero_short_circuit demo (leaf (plain (lit "false"))) (leaf (plain (lit "true")))
      none 0 w0 { w0 with next_pid := 101, clock := 2 } 1 rfl rfl).1 (by decide),
   (conditional_zero_short_circuit demo (leaf (plain (lit "true"))) (leaf (plain (lit "grep")))
      none 0 w0 { w0 with next_pid := 101, clock := 2 } 0 rfl rfl).2 rfl rfl⟩

/-- `true || grep` returns 0 and `grep` is not started; `false || grep` returns what `grep`
returns after `false`. -/
theorem conditional_nonzero_short_circuit_witness :
    parse_command demo
        (node .OP_CONDITIONAL_NZERO (leaf (plain (lit "true"))) (leaf (plain (lit "grep")))) 0 w0
      = .ret 0 { w0 with next_pid := 101, clock := 2 }
    ∧ parse_command demo
        (node .OP_CONDITIONAL_NZERO (leaf (plain (lit "false"))) (leaf (plain (lit "grep")))) 0 w0
      = parse_command demo (leaf (plain (lit "grep"))) 1 { w0 with next_pid := 101, clock := 2 } :=
  ⟨(conditional_nonzero_short_circuit demo (leaf (plain (lit "true")))
      (leaf (plain (lit "grep"))) none 0 w0 { w0 with next_pid := 101, clock := 2 } 0 rfl rfl).1 rfl,
   (conditional_nonzero_short_circuit demo (leaf (plain (lit "false")))
      (leaf (plain (lit "grep"))) none 0 w0 { w0 with next_pid := 101, clock := 2 } 1 rfl rfl).2
      (by decide) rfl⟩

/-! ## Builtins -/

/-- A successful `chdir` makes its argument the working directory and leaves the
environment alone. -/
theorem chdir_some (P : Platform) (path : String) (w w1 : World)
    (h : chdir P path w = (some (), w1)) : w1.cwd = path ∧ w1.env = w.env := by
  simp only [chdir, tick] at h
  split at h
  · simp at h
  · simp only [Prod.mk.injEq, true_and] at h
    subst h
    simp

/-- A successful `setenv` was given a string and binds the name to it; nothing else changes
but the count of system calls. -/
theorem setenv_some (P : Platform) (name : String) (value : Option String) (w w1 : World)
    (h : setenv P name value w = .ret (some ()) w1) :
    ∃ v, value = some v ∧ w1 = { w with env := store name v w.env, clock := w.clock + 1 } := by
  simp only [setenv, tick] at h
  split at h
  · simp at h
  · cases value with
    | none => simp [segfault] at h
    | some v =>
      refine ⟨v, rfl, ?_⟩
      simp only at h
      split at h
      · simp at h
      · simp only [Res.ret.injEq, true_and] at h
        exact h.symm

/-- A failed `setenv` leaves the environment as it was. -/
theorem setenv_none (P : Platform) (name : String) (value : Option String) (w w1 : World)
    (h : setenv P name value w = .ret none w1) :
    w1 = { w with clock := w.clock + 1 } := by
  simp only [setenv, tick] at h
  split at h
  · simp only [Res.ret.injEq, true_and] at h
    exact h.symm
  · cases value with
    | none => simp [segfault] at h
    | some v =>
      simp only at h
      split at h
      · simp only [Res.ret.injEq, true_and] at h
        exact h.symm
      · simp at h

/-- After `store key value`, the key is bound to the value. -/
theorem lookup_store (key value : String) (l : List (String × String)) :
    lookup key (store key value l) = some value := by
  induction l with
  | nil => simp [store, lookup]
  | cons p rest ih =>
    obtain ⟨k, v⟩ := p
    by_cases hk : k = key
    · simp [store, lookup, hk]
    · simp [store, lookup, hk, ih]

/-- C9. `cd` with no argument (as `shell_cd(NULL)` and as the simple command `cd` without
redirection): with `HOME` unset it returns 1 and the working directory and the environment
are unchanged; with `HOME` set to a directory that `chdir` enters it returns 0 and the
working directory is the value of `HOME`. -/
theorem cd_without_argument (P : Platform) (s : simple_command_t) (level : Nat) (w : World)
    (expand : Bool) (next_part next_word : word_t)
    (hverb : s.verb = .mk "cd" expand next_part next_word)
    (hparams : s.params = .NULL) (hout : s.out = .NULL) :
    (getenv "HOME" w = none →
      ∃ w1, shell_cd P .NULL w = .ret true w1 ∧ parse_simple P (some s) level w = .ret 1 w1
        ∧ w1.cwd = w.cwd ∧ w1.env = w.env) ∧
    (∀ home w1, getenv "HOME" w = some home → chdir P home w = (some (), w1) →
      shell_cd P .NULL w = .ret false w1 ∧ parse_simple P (some s) level w = .ret 0 w1
        ∧ w1.cwd = home) := by
  constructor
  · intro hhome
    refine ⟨fprintf_stderr "cd: HOME not set\n" w, ?_, ?_, rfl, rfl⟩
    · simp [shell_cd, hhome, to_bool]
    · simp [parse_simple, hverb, hparams, hout, shell_cd, hhome, to_bool, bool_result, of_bool]
  · intro home w1 hhome hchdir
    refine ⟨?_, ?_, (chdir_some P home w w1 hchdir).1⟩
    · simp [shell_cd, hhome, hchdir, to_bool]
    · simp [parse_simple, hverb, hparams, hout, shell_cd, hhome, hchdir, to_bool, bool_result,
        of_bool]

/-- `cd` in a shell without `HOME`, and in a shell with `HOME=/tmp/home`. -/
theorem cd_without_argument_witness :
    (∃ w1, shell_cd demo .NULL w0 = .ret true w1
        ∧ parse_simple demo (some (plain (lit "cd"))) 0 w0 = .ret 1 w1
        ∧ w1.cwd = w0.cwd ∧ w1.env = w0.env) ∧
    (shell_cd demo .NULL w_home = .ret false { w_home with cwd := "/tmp/home", clock := 1 }
      ∧ parse_simple demo (some (plain (lit "cd"))) 0 w_home
        = .ret 0 { w_home with cwd := "/tmp/home", clock := 1 }
      ∧ ({ w_home with cwd := "/tmp/home", clock := 1 } : World).cwd = "/tmp/home") :=
  ⟨(cd_without_argument demo (plain (lit "cd")) 0 w0 false .NULL .NULL rfl rfl rfl).1 rfl,
   (cd_without_argument demo (plain (lit "cd")) 0 w_home false .NULL .NULL rfl rfl rfl).2
      "/tmp/home" { w_home with cwd := "/tmp/home", clock := 1 } rfl rfl⟩

/-- C7 (as stated, for every NAME). The command `cd=5`, whose verb `cd` is followed by the
part `=`, in a shell with `HOME=/tmp/home`: the environment-set call succeeds when issued,
yet `parse_simple` runs the builtin; it returns 0 having changed the working directory, and
no variable `cd` is set. -/
theorem assignment_to_builtin_name :
    setenv demo "cd" (demo.get_word w_home.env (lit "5")) w_home
      = .ret (some ()) { w_home with env := [("HOME", "/tmp/home"), ("cd", "5")], clock := 1 } ∧
    parse_simple demo (some (plain (.mk "cd" false (.mk "=" false (lit "5") .NULL) .NULL))) 0
        w_home
      = .ret 0 { w_home with cwd := "/tmp/home", clock := 1 } ∧
    getenv "cd" { w_home with cwd := "/tmp/home", clock := 1 } = none := by
  decide

/-- C7 (amended). For a verb `NAME` other than `cd`, `exit` and `quit` that is followed by
the part `=`: when the `setenv` call on the expansion of the word after `=` succeeds (the
expansion is then a string, not `NULL`), `parse_simple` returns 0, `NAME` is bound to that
expansion, and no process was created; when the call fails, `parse_simple` returns 1, and the
environment is unchanged and no process was created. -/
theorem assignment_sets_variable (P : Platform) (s : simple_command_t) (level : Nat)
    (w : World) (name : String) (expand eq_expand : Bool)
    (value eq_next next_word : word_t)
    (hverb : s.verb = .mk name expand (.mk "=" eq_expand value eq_next) next_word)
    (hcd : name ≠ "cd") (hexit : name ≠ "exit") (hquit : name ≠ "quit") :
    (∀ w1, setenv P name (P.get_word w.env value) w = .ret (some ()) w1 →
      parse_simple P (some s) level w = .ret 0 w1
        ∧ (getenv name w1).isSome = true
        ∧ getenv name w1 = P.get_word w.env value
        ∧ w1.next_pid = w.next_pid) ∧
    (∀ w1, setenv P name (P.get_word w.env value) w = .ret none w1 →
      ∃ w2, parse_simple P (some s) level w = .ret 1 w2
        ∧ w2.env = w.env ∧ w2.next_pid = w.next_pid) := by
  constructor
  · intro w1 hset
    obtain ⟨v, hv, hw1⟩ := setenv_some P _ _ w w1 hset
    refine ⟨?_, ?_, ?_, ?_⟩
    · simp [parse_simple, hverb, hcd, hexit, hquit, assigned_value, hset, EXIT_SUCCESS]
    · rw [hw1]
      simp [getenv, lookup_store]
    · rw [hw1, hv]
      simp [getenv, lookup_store]
    · rw [hw1]
  · intro w1 hset
    refine ⟨parse_error "setenv" level w1, ?_, ?_, ?_⟩
    · simp [parse_simple, hverb, hcd, hexit, hquit, assigned_value, hset, EXIT_FAILURE]
    · rw [setenv_none P _ _ w w1 hset]
      rfl
    · rw [setenv_none P _ _ w w1 hset]
      rfl

/-- The command `X=5` where `setenv` works, and where it fails. -/
theorem assignment_sets_variable_witness :
    (parse_simple demo (some (plain (.mk "X" false (.mk "=" false (lit "5") .NULL) .NULL))) 0 w0
        = .ret 0 { w0 with env := [("X", "5")], clock := 1 }
      ∧ (getenv "X" { w0 with env := [("X", "5")], clock := 1 }).isSome = true
      ∧ getenv "X" { w0 with env := [("X", "5")], clock := 1 } = some "5"
      ∧ ({ w0 with env := [("X", "5")], clock := 1 } : World).next_pid = w0.next_pid) ∧
    (∃ w2, parse_simple demo_failing
          (some (plain (.mk "X" false (.mk "=" false (lit "5") .NULL) .NULL))) 0 w0 = .ret 1 w2
        ∧ w2.env = w0.env ∧ w2.next_pid = w0.next_pid) :=
  ⟨(assignment_sets_variable demo (plain (.mk "X" false (.mk "=" false (lit "5") .NULL) .NULL))
      0 w0 "X" false false (lit "5") .NULL .NULL rfl (by decide) (by decide) (by decide)).1
      { w0 with env := [("X", "5")], clock := 1 } rfl,
   (assignment_sets_variable demo_failing
      (plain (.mk "X" false (.mk "=" false (lit "5") .NULL) .NULL))
      0 w0 "X" false false (lit "5") .NULL .NULL rfl (by decide) (by decide) (by decide)).2
      { w0 with clock := 1 } rfl⟩

/-- The command `X=`, with no word after `=`: the expansion is `NULL`, `setenv` dereferences
it and the shell dies from `SIGSEGV`; `parse_simple` does not return. -/
theorem assignment_without_value :
    demo.get_word w0.env .NULL = none ∧
    parse_simple demo (some (plain (.mk "X" false (.mk "=" false .NULL .NULL) .NULL))) 0 w0
      = .ended SIGSEGV { w0 with clock := 1 } := by
  decide

/-- `cd /tmp/home` when `getcwd` fails: `NULL` goes to `setenv` and the shell dies from
`SIGSEGV`. -/
theorem cd_without_working_directory :
    shell_cd demo_failing (lit "/tmp/home") w0 = .ended SIGSEGV { w0 with clock := 2 } := by
  decide

/-! ## Redirections -/

/-- C8. `cd > notes.txt` where `notes.txt` exists with content: the target is opened with
`O_WRONLY | O_CREAT` (no `O_TRUNC`), `parse_simple` returns 0 and the file still holds its
content, whereas `cd > fresh.txt` creates the missing file empty. -/
theorem cd_redirection_keeps_content :
    lookup "notes.txt" w_home.files = some "remember the milk\n" ∧
    parse_simple demo (some { plain (lit "cd") with out := lit "notes.txt" }) 0 w_home
      = .ret 0 { w_home with cwd := "/tmp/home", clock := 3,
                             fds := [some .tty, some .tty, some .tty, none],
                             files := [("notes.txt", "remember the milk\n")] } ∧
    parse_simple demo (some { plain (lit "cd") with out := lit "fresh.txt" }) 0 w_home
      = .ret 0 { w_home with cwd := "/tmp/home", clock := 3,
                             fds := [some .tty, some .tty, some .tty, none],
                             files := [("notes.txt", "remember the milk\n"),
                                       ("fresh.txt", "")] } := by
  decide

/-- C10. `cat < notes.txt >> out.txt` (mode `IO_OUT_APPEND`) and `cat < notes.txt 2>> out.txt`
(mode `IO_ERR_APPEND`): the redirections of the child leave descriptor 0 on the terminal, the
input target is not opened, and `cat` copies nothing; in mode `IO_REGULAR` the same input
target becomes descriptor 0 and `cat` copies it. -/
theorem append_mode_drops_input_redirection :
    (∃ w, child_redirections demo
          { plain (lit "cat") with in_ := lit "notes.txt", out := lit "out.txt",
                                   io_flags := .IO_OUT_APPEND } 0 w0 = .ret () w
        ∧ fd_get w.fds STDIN_FILENO = some .tty) ∧
    (∃ w, child_redirections demo
          { plain (lit "cat") with in_ := lit "notes.txt", err := lit "out.txt",
                                   io_flags := .IO_ERR_APPEND } 0 w0 = .ret () w
        ∧ fd_get w.fds STDIN_FILENO = some .tty) ∧
    (∃ w, child_redirections demo
          { plain (lit "cat") with in_ := lit "notes.txt", out := lit "out.txt",
                                   io_flags := .IO_REGULAR } 0 w0 = .ret () w
        ∧ fd_get w.fds STDIN_FILENO = some (.file "notes.txt" [.O_RDONLY])) ∧
    (∃ w, parse_simple demo
          (some { plain (lit "cat") with in_ := lit "notes.txt", out := lit "out.txt",
                                         io_flags := .IO_OUT_APPEND }) 0 w0 = .ret 0 w
        ∧ lookup "out.txt" w.files = some "") ∧
    (∃ w, parse_simple demo
          (some { plain (lit "cat") with in_ := lit "notes.txt", out := lit "out.txt",
                                         io_flags := .IO_REGULAR }) 0 w0 = .ret 0 w
        ∧ lookup "out.txt" w.files = some "remember the milk\n") :=
  ⟨⟨_, rfl, rfl⟩, ⟨_, rfl, rfl⟩, ⟨_, rfl, rfl⟩, ⟨_, rfl, rfl⟩, ⟨_, rfl, rfl⟩⟩

/-! ## Parallel execution -/

/-- C2. `false & true`: evaluating `false` in the first child returns 1, yet the node
returns 0 (each child ends with `exit(EXIT_SUCCESS)` and the parent returns
`WEXITSTATUS(status1 && status2)`). -/
theorem parallel_ignores_failure :
    parse_command demo (leaf (plain (lit "false"))) 2 { w0 with next_pid := 101, clock := 1 }
      = .ret 1 { w0 with next_pid := 102, clock := 3 } ∧
    parse_command demo
        (node .OP_PARALLEL (leaf (plain (lit "false"))) (leaf (plain (lit "true")))) 0 w0
      = .ret 0 { w0 with next_pid := 104, clock := 8 } := by
  decide

/-! ## Descriptor table -/

theorem fd_get_set_self (fds : List (Option handle)) (n : Nat) (h : Option handle) :
    fd_get (fd_set fds n h) n = h := by
  induction n generalizing fds with
  | zero => cases fds <;> simp [fd_set, fd_get]
  | succ n ih => cases fds <;> simp [fd_set, fd_get, ih]

theorem fd_get_nil (m : Nat) : fd_get [] m = none := by
  cases m <;> simp [fd_get]

theorem fd_get_set_other (fds : List (Option handle)) (n m : Nat) (h : Option handle)
    (hne : m ≠ n) : fd_get (fd_set fds n h) m = fd_get fds m := by
  induction n generalizing fds m with
  | zero =>
    cases m with
    | zero => exact absurd rfl hne
    | succ m => cases fds <;> simp [fd_set, fd_get, fd_get_nil]
  | succ n ih =>
    cases m with
    | zero => cases fds <;> simp [fd_set, fd_get]
    | succ m =>
      have hne' : m ≠ n := fun hmn => hne (by rw [hmn])
      cases fds with
      | nil => simp [fd_set, fd_get, ih [] m hne', fd_get_nil]
      | cons x t => simp [fd_set, fd_get, ih t m hne']

theorem fd_alloc_bound (h : handle) (fds : List (Option handle)) :
    fd_get (fd_alloc h fds).2 (fd_alloc h fds).1 = some h := by
  induction fds with
  | nil => simp [fd_alloc, fd_get]
  | cons x t ih => cases x <;> simp [fd_alloc, fd_get, ih]

theorem fd_alloc_was_free (h : handle) (fds : List (Option handle)) :
    fd_get fds (fd_alloc h fds).1 = none := by
  induction fds with
  | nil => simp [fd_alloc, fd_get]
  | cons x t ih => cases x <;> simp [fd_alloc, fd_get, ih]

theorem fd_alloc_keeps (h x : handle) (fds : List (Option handle)) (n : Nat)
    (hn : fd_get fds n = some x) : fd_get (fd_alloc h fds).2 n = some x := by
  induction fds generalizing n with
  | nil => simp [fd_get] at hn
  | cons y t ih =>
    cases y with
    | none =>
      cases n with
      | zero => simp [fd_get] at hn
      | succ n => simpa [fd_alloc, fd_get] using hn
    | some y =>
      cases n with
      | zero => simpa [fd_alloc, fd_get] using hn
      | succ n => simpa [fd_alloc, fd_get] using ih n (by simpa [fd_get] using hn)

/-! ## System calls that do not fail for an outside reason -/

theorem pipe_ok (P : Platform) (hP : ∀ n, P.fails n = false) (w : World) :
    ∃ rd wr w1, pipe P w = (some (rd, wr), w1) ∧ (fd_get w1.fds rd).isSome = true
      ∧ (fd_get w1.fds wr).isSome = true ∧ rd ≠ wr := by
  refine ⟨(fd_alloc (.pipe_read w.npipes) w.fds).1,
    (fd_alloc (.pipe_write w.npipes) (fd_alloc (.pipe_read w.npipes) w.fds).2).1,
    { w with clock := w.clock + 1, npipes := w.npipes + 1,
             fds := (fd_alloc (.pipe_write w.npipes) (fd_alloc (.pipe_read w.npipes) w.fds).2).2 },
    by simp [pipe, tick, hP], ?_, ?_, ?_⟩
  · simp [fd_alloc_keeps _ _ _ _ (fd_alloc_bound (.pipe_read w.npipes) w.fds)]
  · simp [fd_alloc_bound]
  · intro heq
    have hfree := fd_alloc_was_free (.pipe_write w.npipes)
      (fd_alloc (.pipe_read w.npipes) w.fds).2
    rw [← heq, fd_alloc_bound] at hfree
    exact absurd hfree (by simp)

theorem fork_ok (P : Platform) (hP : ∀ n, P.fails n = false) (w : World) :
    ∃ pid w1, fork P w = (some pid, w1) ∧ w1.fds = w.fds := by
  exact ⟨w.next_pid, { w with clock := w.clock + 1, next_pid := w.next_pid + 1 },
    by simp [fork, tick, hP], rfl⟩

theorem close_ok (P : Platform) (hP : ∀ n, P.fails n = false) (fd : Nat) (w : World)
    (hfd : (fd_get w.fds fd).isSome = true) :
    ∃ w1, close P fd w = (some (), w1) ∧ w1.fds = fd_set w.fds fd none := by
  refine ⟨{ w with clock := w.clock + 1, fds := fd_set w.fds fd none }, ?_, rfl⟩
  have hnone : (fd_get w.fds fd).isNone = false := by
    cases hget : fd_get w.fds fd <;> simp [hget] at hfd ⊢
  simp [close, tick, hP, hnone]

theorem dup2_ok (P : Platform) (hP : ∀ n, P.fails n = false) (oldfd newfd : Nat) (w : World)
    (hfd : (fd_get w.fds oldfd).isSome = true) :
    ∃ w1, dup2 P oldfd newfd w = (some (), w1)
      ∧ w1.fds = fd_set w.fds newfd (fd_get w.fds oldfd) := by
  refine ⟨{ w with clock := w.clock + 1, fds := fd_set w.fds newfd (fd_get w.fds oldfd) },
    ?_, rfl⟩
  have hnone : (fd_get w.fds oldfd).isNone = false := by
    cases hget : fd_get w.fds oldfd <;> simp [hget] at hfd ⊢
  simp [dup2, tick, hP, hnone]

theorem waitpid_ok (P : Platform) (hP : ∀ n, P.fails n = false) (pid : Nat) (w : World) :
    ∀ wstatus, waitpid P pid wstatus w = (some wstatus, { w with clock := w.clock + 1 }) := by
  intro wstatus
  simp [waitpid, tick, hP]

/-- A descriptor that is open stays open when another slot, or its own, is bound. -/
theorem fd_open_after_bind (fds : List (Option handle)) (n m : Nat) (h : Option handle)
    (hh : h.isSome = true) (hm : (fd_get fds m).isSome = true) :
    (fd_get (fd_set fds n h) m).isSome = true := by
  by_cases hmn : m = n
  · rw [hmn, fd_get_set_self]
    exact hh
  · rw [fd_get_set_other fds n m h hmn]
    exact hm

/-! ## The two process-creating strategies -/

/-- `run_on_pipe` when every step succeeds and both commands return: the result only depends
on whether the status of the second command is 0. -/
theorem run_on_pipe_returns (P : Platform) (cmd1 cmd2 : Nat → World → Res Int)
    (level : Nat) (w : World) (rd wr pid1 pid2 : Nat) (sl sr : Int)
    (w1 w2 a1 a2 a3 a4 w3 b1 b2 b3 b4 w4 w5 w6 w7 : World)
    (hpipe : pipe P w = (some (rd, wr), w1))
    (hfork1 : fork P w1 = (some pid1, w2))
    (hclose1 : close P rd w2 = (some (), a1))
    (hdup1 : dup2 P wr STDOUT_FILENO a1 = (some (), a2))
    (hclose2 : close P wr a2 = (some (), a3))
    (hleft : cmd1 (level + 1) a3 = .ret sl a4)
    (hfork2 : fork P (resume w2 a4) = (some pid2, w3))
    (hclose3 : close P wr w3 = (some (), b1))
    (hdup2 : dup2 P rd STDIN_FILENO b1 = (some (), b2))
    (hclose4 : close P rd b2 = (some (), b3))
    (hright : cmd2 (level + 1) b3 = .ret sr b4)
    (hclose5 : close P rd (resume w3 b4) = (some (), w4))
    (hclose6 : close P wr w4 = (some (), w5))
    (hwait1 : ∀ wstatus, waitpid P pid1 wstatus w5 = (some wstatus, w6))
    (hwait2 : ∀ wstatus, waitpid P pid2 wstatus w6 = (some wstatus, w7)) :
    run_on_pipe P cmd1 cmd2 level w = .ret (decide (sr ≠ 0)) w7 := by
  by_cases hsr : sr = 0
  · simp [run_on_pipe, hpipe, hfork1, hclose1, hdup1, hclose2, hleft,
      child_end, exit, hfork2, hclose3, hdup2, hclose4, hright, hclose5, hclose6, hwait1,
      hwait2, hsr, EXIT_SUCCESS, EXIT_FAILURE, WIFEXITED, WEXITSTATUS]
  · simp [run_on_pipe, hpipe, hfork1, hclose1, hdup1, hclose2, hleft,
      child_end, exit, hfork2, hclose3, hdup2, hclose4, hright, hclose5, hclose6, hwait1,
      hwait2, hsr, EXIT_SUCCESS, EXIT_FAILURE, WIFEXITED, WEXITSTATUS]

/-- `WEXITSTATUS` of the 0 or 1 that `status1 && status2` evaluates to is 0. -/
theorem wexitstatus_of_conjunction (a b : Bool) :
    to_bool (WEXITSTATUS (of_bool (a && b)).toNat) = false := by
  cases a <;> cases b <;> decide

/-- `run_in_parallel` returns `false` (0) whenever both `fork`s and both `waitpid`s succeed,
whatever the two commands do. -/
theorem run_in_parallel_returns (P : Platform) (hP : ∀ n, P.fails n = false)
    (cmd1 cmd2 : Nat → World → Res Int) (level : Nat) (w : World) :
    ∃ w1, run_in_parallel P cmd1 cmd2 level w = .ret false w1 := by
  simp [run_in_parallel, fork, waitpid, tick, hP, wexitstatus_of_conjunction]

/-- `run_on_pipe` returns `false` (0) when no system call fails for an outside reason and
both commands return 0 in every state. -/
theorem run_on_pipe_all_ok (P : Platform) (hP : ∀ n, P.fails n = false)
    (cmd1 cmd2 : Nat → World → Res Int)
    (h1 : ∀ level w, ∃ w1, cmd1 level w = .ret 0 w1)
    (h2 : ∀ level w, ∃ w1, cmd2 level w = .ret 0 w1) (level : Nat) (w : World) :
    ∃ w1, run_on_pipe P cmd1 cmd2 level w = .ret false w1 := by
  obtain ⟨rd, wr, w1, hpipe, hrd, hwr, hne⟩ := pipe_ok P hP w
  obtain ⟨pid1, w2, hfork1, hfds2⟩ := fork_ok P hP w1
  -- the first child
  obtain ⟨a1, hclose1, hfa1⟩ := close_ok P hP rd w2 (by rw [hfds2]; exact hrd)
  have hwr1 : (fd_get a1.fds wr).isSome = true := by
    rw [hfa1, fd_get_set_other _ _ _ _ (Ne.symm hne), hfds2]
    exact hwr
  obtain ⟨a2, hdup1, hfa2⟩ := dup2_ok P hP wr STDOUT_FILENO a1 hwr1
  obtain ⟨a3, hclose2, _⟩ := close_ok P hP wr a2
    (by rw [hfa2]; exact fd_open_after_bind _ _ _ _ hwr1 hwr1)
  obtain ⟨a4, hleft⟩ := h1 (level + 1) a3
  -- the second child
  obtain ⟨pid2, w3, hfork2, hfds3⟩ := fork_ok P hP (resume w2 a4)
  have hfds3' : w3.fds = w1.fds := by rw [hfds3]; simpa [resume] using hfds2
  obtain ⟨b1, hclose3, hfb1⟩ := close_ok P hP wr w3 (by rw [hfds3']; exact hwr)
  have hrd1 : (fd_get b1.fds rd).isSome = true := by
    rw [hfb1, fd_get_set_other _ _ _ _ hne, hfds3']
    exact hrd
  obtain ⟨b2, hdup2, hfb2⟩ := dup2_ok P hP rd STDIN_FILENO b1 hrd1
  obtain ⟨b3, hclose4, _⟩ := close_ok P hP rd b2
    (by rw [hfb2]; exact fd_open_after_bind _ _ _ _ hrd1 hrd1)
  obtain ⟨b4, hright⟩ := h2 (level + 1) b3
  -- the parent
  obtain ⟨w4, hclose5, hfw4⟩ := close_ok P hP rd (resume w3 b4)
    (by simpa [resume, hfds3'] using hrd)
  obtain ⟨w5, hclose6, _⟩ := close_ok P hP wr w4
    (by
      rw [hfw4, fd_get_set_other _ _ _ _ (Ne.symm hne)]
      simpa [resume, hfds3'] using hwr)
  exact ⟨_, by
    simpa using run_on_pipe_returns P cmd1 cmd2 level w rd wr pid1 pid2 0 0
      w1 w2 a1 a2 a3 a4 w3 b1 b2 b3 b4 w4 w5 _ _ hpipe hfork1 hclose1 hdup1 hclose2 hleft
      hfork2 hclose3 hdup2 hclose4 hright hclose5 hclose6 (waitpid_ok P hP pid1 w5)
      (waitpid_ok P hP pid2 _)⟩

/-- A well-formed tree is not the `NULL` pointer. -/
theorem well_formed_not_null (c : command_t) (h : well_formed c = true) : c.isNULL = false := by
  cases c with
  | NULL => simp [well_formed] at h
  | mk cmd1 cmd2 op scmd => rfl

/-- A well-formed tree whose leaves always return 0 returns 0, when no system call fails for
an outside reason. -/
theorem all_leaves_ok (P : Platform) (hP : ∀ n, P.fails n = false) (c : command_t)
    (hwf : well_formed c = true)
    (hleaf : ∀ s ∈ leaves c, ∀ level w, ∃ w1, parse_simple P s level w = .ret 0 w1) :
    ∀ level w, ∃ w1, parse_command P c level w = .ret 0 w1 := by
  induction c with
  | NULL => simp [well_formed] at hwf
  | mk cmd1 cmd2 op scmd ih1 ih2 =>
    cases op with
    | OP_NONE =>
      intro level w
      simpa [parse_command] using hleaf scmd (by simp [leaves]) level w
    | OP_DUMMY => simp [well_formed] at hwf
    | OP_SEQUENTIAL =>
      simp only [well_formed, Bool.and_eq_true] at hwf
      have k1 := ih1 hwf.1 (fun s hs => hleaf s (by simp [leaves, hs]))
      have k2 := ih2 hwf.2 (fun s hs => hleaf s (by simp [leaves, hs]))
      intro level w
      obtain ⟨w1, e1⟩ := k1 (level + 1) w
      obtain ⟨w2, e2⟩ := k2 (level + 1) w1
      exact ⟨w2, by
        simp [parse_command, well_formed_not_null _ hwf.1, well_formed_not_null _ hwf.2, e1, e2]⟩
    | OP_PARALLEL =>
      simp only [well_formed, Bool.and_eq_true] at hwf
      intro level w
      obtain ⟨w1, e⟩ := run_in_parallel_returns P hP (parse_command P cmd1)
        (parse_command P cmd2) (level + 1) w
      exact ⟨w1, by
        simp [parse_command, well_formed_not_null _ hwf.1, well_formed_not_null _ hwf.2, e,
          bool_result, of_bool]⟩
    | OP_CONDITIONAL_ZERO =>
      simp only [well_formed, Bool.and_eq_true] at hwf
      have k1 := ih1 hwf.1 (fun s hs => hleaf s (by simp [leaves, hs]))
      have k2 := ih2 hwf.2 (fun s hs => hleaf s (by simp [leaves, hs]))
      intro level w
      obtain ⟨w1, e1⟩ := k1 (level + 1) w
      obtain ⟨w2, e2⟩ := k2 (level + 1) w1
      exact ⟨w2, by
        simp [parse_command, well_formed_not_null _ hwf.1, well_formed_not_null _ hwf.2, e1, e2]⟩
    | OP_CONDITIONAL_NZERO =>
      simp only [well_formed, Bool.and_eq_true] at hwf
      have k1 := ih1 hwf.1 (fun s hs => hleaf s (by simp [leaves, hs]))
      intro level w
      obtain ⟨w1, e1⟩ := k1 (level + 1) w
      exact ⟨w1, by simp [parse_command, well_formed_not_null _ hwf.1, e1]⟩
    | OP_PIPE =>
      simp only [well_formed, Bool.and_eq_true] at hwf
      have k1 := ih1 hwf.1 (fun s hs => hleaf s (by simp [leaves, hs]))
      have k2 := ih2 hwf.2 (fun s hs => hleaf s (by simp [leaves, hs]))
      intro level w
      obtain ⟨w1, e⟩ := run_on_pipe_all_ok P hP (parse_command P cmd1) (parse_command P cmd2)
        k1 k2 (level + 1) w
      exact ⟨w1, by
        simp [parse_command, well_formed_not_null _ hwf.1, well_formed_not_null _ hwf.2, e,
          bool_result, of_bool]⟩

/-! ## Pipelines -/

/-- C1 (as stated). `true | grep`: evaluating `grep` in the right-hand child returns 2, and
the node returns 1. -/
theorem pipe_status_is_not_right_status :
    parse_command demo (leaf (plain (lit "grep"))) 2
        { w0 with fds := [some (.pipe_read 0), some .tty, some .tty, none, none], npipes := 1,
                  next_pid := 103, clock := 11 }
      = .ret 2 { w0 with fds := [some (.pipe_read 0), some .tty, some .tty, none, none],
                         npipes := 1, next_pid := 104, clock := 13 } ∧
    parse_command demo
        (node .OP_PIPE (leaf (plain (lit "true"))) (leaf (plain (lit "grep")))) 0 w0
      = .ret 1 { w0 with fds := [some .tty, some .tty, some .tty, none, none], npipes := 1,
                         next_pid := 104, clock := 17 } := by
  decide

/-- C1 (amended). `Pipe(left, right)`: when `pipe`, both `fork`s, the descriptor operations of
both children and of the parent, and both `waitpid`s succeed, and evaluating `left` and
`right` in their children returns `sl` and `sr`, the node returns 0 if `sr` is 0 and 1
otherwise, whatever `sl` is. -/
theorem pipe_status (P : Platform) (left right : command_t) (scmd : Option simple_command_t)
    (level : Nat) (w : World) (rd wr pid1 pid2 : Nat) (sl sr : Int)
    (w1 w2 a1 a2 a3 a4 w3 b1 b2 b3 b4 w4 w5 w6 w7 : World)
    (hl : left.isNULL = false) (hr : right.isNULL = false)
    (hpipe : pipe P w = (some (rd, wr), w1))
    (hfork1 : fork P w1 = (some pid1, w2))
    (hclose1 : close P rd w2 = (some (), a1))
    (hdup1 : dup2 P wr STDOUT_FILENO a1 = (some (), a2))
    (hclose2 : close P wr a2 = (some (), a3))
    (hleft : parse_command P left (level + 2) a3 = .ret sl a4)
    (hfork2 : fork P (resume w2 a4) = (some pid2, w3))
    (hclose3 : close P wr w3 = (some (), b1))
    (hdup2 : dup2 P rd STDIN_FILENO b1 = (some (), b2))
    (hclose4 : close P rd b2 = (some (), b3))
    (hright : parse_command P right (level + 2) b3 = .ret sr b4)
    (hclose5 : close P rd (resume w3 b4) = (some (), w4))
    (hclose6 : close P wr w4 = (some (), w5))
    (hwait1 : ∀ wstatus, waitpid P pid1 wstatus w5 = (some wstatus, w6))
    (hwait2 : ∀ wstatus, waitpid P pid2 wstatus w6 = (some wstatus, w7)) :
    parse_command P (.mk left right .OP_PIPE scmd) level w
      = .ret (if sr = 0 then 0 else 1) w7 := by
  by_cases hsr : sr = 0
  · simp [parse_command, hl, hr, run_on_pipe, hpipe, hfork1, hclose1, hdup1, hclose2, hleft,
      child_end, exit, hfork2, hclose3, hdup2, hclose4, hright, hclose5, hclose6, hwait1,
      hwait2, hsr, EXIT_SUCCESS, EXIT_FAILURE, WIFEXITED, WEXITSTATUS, bool_result, of_bool]
  · simp [parse_command, hl, hr, run_on_pipe, hpipe, hfork1, hclose1, hdup1, hclose2, hleft,
      child_end, exit, hfork2, hclose3, hdup2, hclose4, hright, hclose5, hclose6, hwait1,
      hwait2, hsr, EXIT_SUCCESS, EXIT_FAILURE, WIFEXITED, WEXITSTATUS, bool_result, of_bool]

/-- The pipelines `false | true` and `true | grep`. -/
theorem pipe_status_witness :
    parse_command demo
        (node .OP_PIPE (leaf (plain (lit "false"))) (leaf (plain (lit "true")))) 0 w0
      = .ret 0 { w0 with fds := [some .tty, some .tty, some .tty, none, none], npipes := 1,
                         next_pid := 104, clock := 17 } ∧
    parse_command demo
        (node .OP_PIPE (leaf (plain (lit "true"))) (leaf (plain (lit "grep")))) 0 w0
      = .ret 1 { w0 with fds := [some .tty, some .tty, some .tty, none, none], npipes := 1,
                         next_pid := 104, clock := 17 } :=
  ⟨pipe_status demo (leaf (plain (lit "false"))) (leaf (plain (lit "true"))) none 0 w0
      _ _ _ _ 1 0 _ _ _ _ _ _ _ _ _ _ _ _ _ _ _ rfl rfl rfl rfl rfl rfl rfl rfl rfl rfl rfl rfl
      rfl rfl rfl (fun _ => rfl) (fun _ => rfl),
   pipe_status demo (leaf (plain (lit "true"))) (leaf (plain (lit "grep"))) none 0 w0
      _ _ _ _ 0 2 _ _ _ _ _ _ _ _ _ _ _ _ _ _ _ rfl rfl rfl rfl rfl rfl rfl rfl rfl rfl rfl rfl
      rfl rfl rfl (fun _ => rfl) (fun _ => rfl)⟩

/-- The program `true` returns 0 in every state of the platform `demo`. -/
theorem demo_true_returns_zero (level : Nat) (w : World) :
    ∃ w1, parse_simple demo (some (plain (lit "true"))) level w = .ret 0 w1 := by
  simp [parse_simple, plain, lit, assigned_value, fork, tick, demo, simple_child,
    child_redirections, same_target, demo_parts, demo_params, demo_execvp, child_end,
    waitpid, resume, WEXITSTATUS]

/-- C6. A well-formed tree whose root is a `Sequential` or a `Parallel` node: when every leaf
returns 0 (in whatever state it is run) and no system call fails for an outside reason, so
that every `fork`, `pipe`, descriptor operation and `waitpid` of the composition strategies
succeeds, `parse_command` on the root returns 0. -/
theorem sequential_or_parallel_of_succeeding_leaves (P : Platform) (cmd1 cmd2 : command_t)
    (op : operator_t) (scmd : Option simple_command_t) (level : Nat) (w : World)
    (hroot : op = .OP_SEQUENTIAL ∨ op = .OP_PARALLEL)
    (hwf : well_formed (.mk cmd1 cmd2 op scmd) = true)
    (hsys : ∀ n, P.fails n = false)
    (hleaf : ∀ s ∈ leaves (.mk cmd1 cmd2 op scmd), ∀ level w,
      ∃ w1, parse_simple P s level w = .ret 0 w1) :
    ∃ w1, parse_command P (.mk cmd1 cmd2 op scmd) level w = .ret 0 w1 := by
  rcases hroot with hop | hop <;> subst hop <;> exact all_leaves_ok P hsys _ hwf hleaf level w

/-- The command line `true | true ; true && true & true || true`. -/
theorem sequential_or_parallel_of_succeeding_leaves_witness :
    ∃ w1, parse_command demo
      (.mk (node .OP_PIPE (leaf (plain (lit "true"))) (leaf (plain (lit "true"))))
        (node .OP_PARALLEL
          (node .OP_CONDITIONAL_ZERO (leaf (plain (lit "true"))) (leaf (plain (lit "true"))))
          (node .OP_CONDITIONAL_NZERO (leaf (plain (lit "true"))) (leaf (plain (lit "true")))))
        .OP_SEQUENTIAL none) 0 w0 = .ret 0 w1 :=
  sequential_or_parallel_of_succeeding_leaves demo _ _ .OP_SEQUENTIAL none 0 w0 (Or.inl rfl) rfl
    (fun _ => rfl)
    (fun s hs => by
      have hs1 : s = some (plain (lit "true")) := by
        simp only [leaves, node, leaf, List.mem_append, List.mem_singleton] at hs
        tauto
      rw [hs1]
      exact demo_true_returns_zero)

end MiniShell
